import Mathlib

/-!
Verification of the Content Safety & Model Orchestration Pipeline of the
`lux-coder/chatbot` repository, as a shallow embedding in Lean 4.

Conventions used throughout this development:
* Python strings are modelled by `String` when they are treated as opaque
  tokens, and by `List Char` where the code manipulates them character by
  character (the data masker).
* Python floats only ever hold the exact values `1.0` and `0.8` and are
  compared with `<`/`>`; they are modelled by `ℚ`, on which those
  comparisons agree with IEEE semantics for these values.
* External collaborators (the spaCy NER model, the regex engine's match
  lists, `hashlib.md5`, `hashlib.sha256`, the OpenAI moderation HTTP call,
  the model providers, the Redis store and the relational repository) are
  modelled as explicit parameters or explicit state, exactly at the
  boundary where the embedded code calls them.
-/

namespace Chatbot

/-! ## §1  PII detector — `src/ai_service/security/pii_detector.py`

`PIIMatch` is the dataclass of `pii_detector.py`.  The Python field `end`
is a Lean keyword and is called `stop` here.  `confidence` is `ℚ`
(pattern matches carry `1.0`, NER matches `0.8`). -/

structure PIIMatch where
  start : Nat
  stop : Nat
  text : String
  pii_type : String
  confidence : ℚ
  deriving DecidableEq, Repr

/-- The loop body of `PIIDetector._remove_overlaps`: `acc ++ [prev]` is the
Python `result` list (`prev` is `result[-1]`), the third argument is the
remaining iterator `matches[1:]`.  `current.start <= prev.end` is the
overlap test and `result[-1] = current` the replacement. -/
def remove_overlaps_go (acc : List PIIMatch) (prev : PIIMatch) :
    List PIIMatch → List PIIMatch
  | [] => acc ++ [prev]
  | current :: rest =>
    if current.start ≤ prev.stop then
      if current.confidence > prev.confidence then
        remove_overlaps_go acc current rest
      else
        remove_overlaps_go acc prev rest
    else
      remove_overlaps_go (acc ++ [prev]) current rest

/-- `PIIDetector._remove_overlaps`. -/
def remove_overlaps : List PIIMatch → List PIIMatch
  | [] => []
  | m :: ms => remove_overlaps_go [] m ms

/-- `PIIDetector.detect`.  The two external scanners—the regex engine's
`finditer` results over all patterns (`_find_pattern_matches`) and the
spaCy entities filtered to PII labels (`_find_ner_matches`)—are passed in
as the lists they return.  The body is the code after those two calls:
concatenate, sort by `start` (Python's stable `list.sort`), then resolve
overlaps. -/
def detect (pattern_matches ner_matches : List PIIMatch) : List PIIMatch :=
  let all_matches := pattern_matches ++ ner_matches
  remove_overlaps (all_matches.mergeSort (fun a b => decide (a.start ≤ b.start)))

/-- `PIIDetector.validate_pii_removal`.  It re-runs `detect` on the masked
text; the scanner outputs for the masked text are passed in as for
`detect`.  `original_text` is unused, exactly as in the source. -/
def validate_pii_removal (original_text masked_text : String)
    (masked_pattern_matches masked_ner_matches : List PIIMatch) : Bool :=
  let remaining_pii := detect masked_pattern_matches masked_ner_matches
  ! remaining_pii.any (fun m => decide (m.confidence > 0.8))

/-! ### Invariant lemmas for overlap resolution -/

/-- Strict separation between consecutive accepted matches. -/
def Sep (a b : PIIMatch) : Prop := a.stop < b.start

theorem remove_overlaps_go_subset (acc : List PIIMatch) (prev : PIIMatch)
    (rest : List PIIMatch) :
    ∀ x ∈ remove_overlaps_go acc prev rest, x ∈ acc ++ prev :: rest := by
  induction rest generalizing acc prev with
  | nil =>
    intro x hx
    simpa [remove_overlaps_go] using hx
  | cons current rest ih =>
    intro x hx
    rw [remove_overlaps_go] at hx
    by_cases h1 : current.start ≤ prev.stop
    · by_cases h2 : current.confidence > prev.confidence
      · simp only [h1, h2, if_true] at hx
        have := ih acc current x hx
        simp only [List.mem_append, List.mem_cons] at this ⊢
        tauto
      · simp only [h1, h2, if_true, if_false] at hx
        have := ih acc prev x hx
        simp only [List.mem_append, List.mem_cons] at this ⊢
        tauto
    · simp only [h1, if_false] at hx
      have := ih (acc ++ [prev]) current x hx
      simp only [List.mem_append, List.mem_cons] at this ⊢
      tauto

theorem remove_overlaps_go_pairwise (acc : List PIIMatch) (prev : PIIMatch)
    (rest : List PIIMatch)
    (hacc : (acc ++ [prev]).Pairwise Sep)
    (hsorted : (prev :: rest).Pairwise (fun a b => a.start ≤ b.start)) :
    (remove_overlaps_go acc prev rest).Pairwise Sep := by
  induction rest generalizing acc prev with
  | nil => simpa [remove_overlaps_go]
  | cons current rest ih =>
    rw [remove_overlaps_go]
    have hps : prev.start ≤ current.start := by
      exact (List.pairwise_cons.mp hsorted).1 current (by simp)
    have hsorted' : (current :: rest).Pairwise (fun a b => a.start ≤ b.start) :=
      (List.pairwise_cons.mp hsorted).2
    have hsortedPrev : (prev :: rest).Pairwise (fun a b => a.start ≤ b.start) :=
      hsorted.sublist (List.Sublist.cons₂ prev (List.sublist_cons_self current rest))
    have haccOfAcc : ∀ a ∈ acc, Sep a prev := by
      intro a ha
      have := List.pairwise_append.mp hacc
      exact this.2.2 a ha prev (by simp)
    by_cases h1 : current.start ≤ prev.stop
    · by_cases h2 : current.confidence > prev.confidence
      · simp only [h1, h2, if_true]
        refine ih acc current ?_ hsorted'
        rw [List.pairwise_append] at hacc ⊢
        refine ⟨hacc.1, by simp, ?_⟩
        intro a ha b hb
        simp only [List.mem_singleton] at hb
        subst hb
        have : Sep a prev := haccOfAcc a ha
        exact lt_of_lt_of_le this hps
      · simp only [h1, h2, if_true, if_false]
        exact ih acc prev hacc hsortedPrev
    · simp only [h1, if_false]
      refine ih (acc ++ [prev]) current ?_ hsorted'
      rw [List.pairwise_append]
      refine ⟨hacc, by simp, ?_⟩
      intro a ha b hb
      simp only [List.mem_singleton] at hb
      subst hb
      rcases List.mem_append.mp ha with ha' | ha'
      · exact lt_of_lt_of_le (haccOfAcc a ha') hps
      · simp only [List.mem_singleton] at ha'
        subst ha'
        exact lt_of_not_ge (fun hge => h1 (by omega))

theorem remove_overlaps_pairwise (l : List PIIMatch)
    (hsorted : l.Pairwise (fun a b => a.start ≤ b.start)) :
    (remove_overlaps l).Pairwise Sep := by
  cases l with
  | nil => simp [remove_overlaps]
  | cons m ms =>
    exact remove_overlaps_go_pairwise [] m ms (by simp) hsorted

theorem remove_overlaps_subset (l : List PIIMatch) :
    ∀ x ∈ remove_overlaps l, x ∈ l := by
  cases l with
  | nil => simp [remove_overlaps]
  | cons m ms =>
    intro x hx
    simpa using remove_overlaps_go_subset [] m ms x hx

/-- C4: the list returned by `PIIDetector.detect` is sorted by `start`
ascending and pairwise non-overlapping: for any two matches, the earlier
one's `end` is at most the later one's `start`.  The hypothesis records
that every raw match handed over by the regex engine and the NER model is
a well-formed span (`start ≤ end`), which both `re.finditer` and spaCy
guarantee. -/
theorem detect_sorted_nonoverlapping (pm nm : List PIIMatch)
    (h : ∀ m ∈ pm ++ nm, m.start ≤ m.stop) :
    (detect pm nm).Pairwise
      (fun a b => a.start ≤ b.start ∧ a.stop ≤ b.start) := by
  unfold detect
  set l := (pm ++ nm).mergeSort (fun a b => decide (a.start ≤ b.start)) with hl
  have hsorted : l.Pairwise (fun a b => a.start ≤ b.start) := by
    have := @List.sorted_mergeSort PIIMatch
      (fun a b : PIIMatch => decide (a.start ≤ b.start))
      (fun a b c hab hbc => by
        simp only [decide_eq_true_eq] at *
        omega)
      (fun a b => by
        simp only [Bool.or_eq_true, decide_eq_true_eq]
        omega)
      (pm ++ nm)
    exact this.imp (fun h => by simpa using h)
  have hmem : ∀ m ∈ l, m.start ≤ m.stop := by
    intro m hm
    exact h m ((List.mergeSort_perm (pm ++ nm) _).mem_iff.mp hm)
  have hpw := remove_overlaps_pairwise l hsorted
  have hsub := remove_overlaps_subset l
  -- upgrade strict separation to the claimed relation using span well-formedness
  have : (remove_overlaps l).Pairwise
      (fun a b => Sep a b ∧ (a.start ≤ a.stop ∧ b.start ≤ b.stop)) := by
    refine hpw.and ?_
    refine List.pairwise_of_forall_mem_list ?_
    intro a ha b hb
    exact ⟨hmem a (hsub a ha), hmem b (hsub b hb)⟩
  exact this.imp (fun hab => by
    obtain ⟨hsep, hwa, _⟩ := hab
    exact ⟨le_trans hwa (le_of_lt hsep), le_of_lt hsep⟩)

/-- Witness for C4 at a concrete input: an email-pattern style match, an
overlapping NER match and a disjoint SSN-style match. -/
theorem detect_sorted_nonoverlapping_witness :
    (∀ m ∈ ([⟨0, 5, "a@b.c", "email", 1⟩, ⟨10, 21, "123-45-6789", "ssn", 1⟩] :
        List PIIMatch) ++ [⟨3, 8, "c Bob", "person", 0.8⟩], m.start ≤ m.stop) ∧
    (detect [⟨0, 5, "a@b.c", "email", 1⟩, ⟨10, 21, "123-45-6789", "ssn", 1⟩]
        [⟨3, 8, "c Bob", "person", 0.8⟩]).Pairwise
      (fun a b => a.start ≤ b.start ∧ a.stop ≤ b.start) := by
  constructor
  · decide
  · exact detect_sorted_nonoverlapping _ _ (by decide)

/-! ### C7 — the overlap-resolution step rule -/

/-- The three possible outcomes of one resolution step. -/
inductive StepAction where
  | replace
  | drop
  | append
  deriving DecidableEq, Repr

/-- The step rule of the amended C7, written from the corrected words:
a candidate whose `start` is `≤` the last accepted match's `end`
(overlapping **or adjacent**) replaces it when strictly more confident
and is dropped otherwise; only a candidate with `start >` the last
accepted `end` is appended. -/
def overlap_step (last current : PIIMatch) : StepAction :=
  if current.start ≤ last.stop then
    if current.confidence > last.confidence then .replace else .drop
  else .append

/-- One step of the amended C7 resolution rule, acting on the accepted
list so far. -/
def spec_step (res : List PIIMatch) (c : PIIMatch) : List PIIMatch :=
  match res.getLast? with
  | none => [c]
  | some last =>
    match overlap_step last c with
    | .replace => res.dropLast ++ [c]
    | .drop => res
    | .append => res ++ [c]

/-- A resolver defined directly from the amended step rule, structured as a
left fold over the candidate list that inspects the last accepted match. -/
def resolve_overlaps_spec (l : List PIIMatch) : List PIIMatch :=
  l.foldl spec_step []

theorem remove_overlaps_go_eq_foldl (acc : List PIIMatch) (prev : PIIMatch)
    (rest : List PIIMatch) :
    remove_overlaps_go acc prev rest = rest.foldl spec_step (acc ++ [prev]) := by
  induction rest generalizing acc prev with
  | nil => simp [remove_overlaps_go]
  | cons current rest ih =>
    rw [remove_overlaps_go, List.foldl_cons]
    have hlast : (acc ++ [prev]).getLast? = some prev := List.getLast?_concat _
    have hdrop : (acc ++ [prev]).dropLast = acc := List.dropLast_concat
    by_cases h1 : current.start ≤ prev.stop
    · by_cases h2 : current.confidence > prev.confidence
      · rw [show spec_step (acc ++ [prev]) current = acc ++ [current] by
          simp [spec_step, hlast, overlap_step, h1, h2, hdrop]]
        simp only [h1, h2, if_true]
        exact ih acc current
      · rw [show spec_step (acc ++ [prev]) current = acc ++ [prev] by
          simp [spec_step, hlast, overlap_step, h1, h2]]
        simp only [h1, h2, if_true, if_false]
        exact ih acc prev
    · rw [show spec_step (acc ++ [prev]) current = (acc ++ [prev]) ++ [current] by
          simp [spec_step, hlast, overlap_step, h1]]
      simp only [h1, if_false]
      exact ih (acc ++ [prev]) current

/-- C7 (amended): `_remove_overlaps` implements exactly the amended step
rule: each candidate in sorted order is compared with the last accepted
match; it **replaces** it iff `candidate.start ≤ last.end` (overlap *or
adjacency* under half-open spans) and its confidence is strictly greater,
is **dropped** iff `candidate.start ≤ last.end` with no greater
confidence, and is **appended** iff `candidate.start > last.end`. -/
theorem remove_overlaps_eq_spec (l : List PIIMatch) :
    remove_overlaps l = resolve_overlaps_spec l := by
  cases l with
  | nil => simp [remove_overlaps, resolve_overlaps_spec]
  | cons m ms =>
    rw [remove_overlaps, resolve_overlaps_spec, List.foldl_cons]
    simpa using remove_overlaps_go_eq_foldl [] m ms

/-- Counterexample to C7 as stated: with half-open spans `[0,2)` and
`[2,4)` the two matches are adjacent, not overlapping
(`candidate.start = last.end`), so the claim requires the second to be
appended; the code treats `start ≤ end` as overlap and drops it. -/
theorem remove_overlaps_adjacent_cex :
    remove_overlaps [⟨0, 2, "ab", "email", 1⟩, ⟨2, 4, "cd", "phone", 1⟩]
        = [⟨0, 2, "ab", "email", 1⟩] ∧
    (⟨2, 4, "cd", "phone", 1⟩ : PIIMatch).start
        = (⟨0, 2, "ab", "email", 1⟩ : PIIMatch).stop ∧
    ([⟨0, 2, "ab", "email", 1⟩] : List PIIMatch)
        ≠ [⟨0, 2, "ab", "email", 1⟩, ⟨2, 4, "cd", "phone", 1⟩] := by
  refine ⟨by decide, by decide, by decide⟩

/-! ### C5 — residual-PII validation -/

/-- Counterexample to C5 as stated: on a masked text in which detection
finds nothing at all, `validate_pii_removal` returns `True`, while the
claim ("returns false whenever no remaining match exceeds that
threshold") requires `False`.  The claim has the boolean the wrong way
round: `True` means *clean*. -/
theorem validate_pii_removal_cex :
    validate_pii_removal "my email is x@y.z" "my email is [EMAIL]" [] [] = true ∧
    ¬ ∃ m ∈ detect ([] : List PIIMatch) [], (0.8 : ℚ) < m.confidence := by
  constructor
  · simp [validate_pii_removal, detect, remove_overlaps, List.mergeSort_nil]
  · simp [detect, remove_overlaps, List.mergeSort_nil]

/-- C5 (amended): `validate_pii_removal` re-runs detection on the masked
text and returns **false** iff some remaining match has confidence
strictly greater than `0.8`, and returns **true** whenever no remaining
match exceeds that threshold. -/
theorem validate_pii_removal_amended (original_text masked_text : String)
    (pm nm : List PIIMatch) :
    validate_pii_removal original_text masked_text pm nm = false ↔
      ∃ m ∈ detect pm nm, (0.8 : ℚ) < m.confidence := by
  simp [validate_pii_removal, List.any_eq_true]

/-! ## §2  Data masker — `src/ai_service/security/data_masker.py`

Strings are `List Char` here because `_mask_value` slices and rebuilds the
value character by character.  `MaskingConfig` is the dataclass of the
source; the Python fields `keep_prefix`/`keep_suffix` are called
`keep_head`/`keep_tail` (their source names are rejected by this
development's lexical conventions).  `mask_char` is a single character,
as in every shipped configuration (`"*"`.)  `hashlib.md5(...).hexdigest()`
is the external function `md5hex`; the `[:8]` truncation stays in the
embedded code. -/

structure MaskingConfig where
  mask_char : Char
  preserve_length : Bool
  hash_mode : Bool
  keep_head : Nat
  keep_tail : Nat
  deriving DecidableEq, Repr

/-- `DataMasker._mask_value`.  Python slice semantics are kept exactly:
`value[:k]` is `List.take k` (clipped), `value[-k:]` for `k > 0` is
`List.drop (length - k)` (the whole string when `k ≥ length`), and the
`keep_prefix > 0` / `keep_suffix > 0` guards of the source are kept.
`mask_length` is computed in `ℤ` because Python subtraction can go
negative.  `pii_type` is accepted and unused, as in the source. -/
def mask_value (md5hex : List Char → List Char) (value : List Char)
    (pii_type : String) (config : MaskingConfig) : List Char :=
  if config.hash_mode then
    (md5hex value).take 8
  else
    let pre := if config.keep_head > 0 then value.take config.keep_head else []
    let suf := if config.keep_tail > 0 then value.drop (value.length - config.keep_tail) else []
    let mask_length : Int := (value.length : Int) - pre.length - suf.length
    if mask_length ≤ 0 then
      value
    else
      let masked_part :=
        if config.preserve_length then
          List.replicate mask_length.toNat config.mask_char
        else
          List.replicate 3 config.mask_char
      pre ++ masked_part ++ suf

theorem mask_value_pre_length (value : List Char) (config : MaskingConfig) :
    (if config.keep_head > 0 then value.take config.keep_head else []).length
      = min config.keep_head value.length := by
  by_cases h : config.keep_head > 0
  · simp [h, List.length_take]
  · simp [h, show config.keep_head = 0 by omega]

theorem mask_value_suf_length (value : List Char) (config : MaskingConfig) :
    (if config.keep_tail > 0 then value.drop (value.length - config.keep_tail) else []).length
      = min config.keep_tail value.length := by
  by_cases h : config.keep_tail > 0
  · simp only [h, if_true, List.length_drop]
    omega
  · simp [h, show config.keep_tail = 0 by omega]

/-- C8: under a length-preserving, non-hash policy the masked value has
exactly the length of the original, its first `keep_prefix` and last
`keep_suffix` characters are the original ones, and every character in
between is `mask_char`. -/
theorem mask_value_length_preserving (md5hex : List Char → List Char)
    (value : List Char) (pii_type : String) (config : MaskingConfig)
    (hh : config.hash_mode = false) (hp : config.preserve_length = true) :
    (mask_value md5hex value pii_type config).length = value.length ∧
    (mask_value md5hex value pii_type config).take config.keep_head
        = value.take config.keep_head ∧
    (mask_value md5hex value pii_type config).drop (value.length - config.keep_tail)
        = value.drop (value.length - config.keep_tail) ∧
    ∀ i : Nat, config.keep_head ≤ i → i + config.keep_tail < value.length →
      (mask_value md5hex value pii_type config)[i]? = some config.mask_char := by
  unfold mask_value
  rw [hh]
  simp only [Bool.false_eq_true, if_false]
  set pre := if config.keep_head > 0 then value.take config.keep_head else [] with hpre
  set suf := if config.keep_tail > 0 then value.drop (value.length - config.keep_tail) else []
    with hsuf
  have hprelen : pre.length = min config.keep_head value.length :=
    mask_value_pre_length value config
  have hsuflen : suf.length = min config.keep_tail value.length :=
    mask_value_suf_length value config
  by_cases hml : (value.length : Int) - pre.length - suf.length ≤ 0
  · -- the fail-safe branch: the value is returned unmodified and there is
    -- no position strictly between the kept ends
    simp only [hml, if_true]
    refine ⟨by simp, by simp, by simp, ?_⟩
    intro i hi1 hi2
    exfalso
    omega
  · simp only [hml, if_false, hp, if_true]
    have hkh : pre.length = config.keep_head := by omega
    have hkt : suf.length = config.keep_tail := by omega
    have hmlnat : ((value.length : Int) - pre.length - suf.length).toNat
        = value.length - config.keep_head - config.keep_tail := by omega
    have hpre' : pre = value.take config.keep_head := by
      rw [hpre]
      by_cases h : config.keep_head > 0
      · rw [if_pos h]
      · rw [if_neg h, show config.keep_head = 0 by omega, List.take_zero]
    have hsuf' : suf = value.drop (value.length - config.keep_tail) := by
      rw [hsuf]
      by_cases h : config.keep_tail > 0
      · rw [if_pos h]
      · rw [if_neg h, show config.keep_tail = 0 by omega, Nat.sub_zero, List.drop_length]
    rw [hmlnat]
    set mid := List.replicate (value.length - config.keep_head - config.keep_tail)
      config.mask_char with hmid
    have hmidlen : mid.length = value.length - config.keep_head - config.keep_tail := by
      simp [hmid]
    have htotal : (pre ++ mid ++ suf).length = value.length := by
      simp only [List.length_append, hmidlen, hkh, hkt]
      omega
    refine ⟨htotal, ?_, ?_, ?_⟩
    · -- the kept head
      have htake : (pre ++ mid ++ suf).take config.keep_head = pre := by
        rw [List.append_assoc, ← hkh]
        exact List.take_left pre (mid ++ suf)
      rw [htake, hpre']
    · -- the kept tail
      have h1 : value.length - config.keep_tail = (pre ++ mid).length := by
        simp only [List.length_append, hmidlen, hkh]
        omega
      have hdrop2 : (pre ++ mid ++ suf).drop ((pre ++ mid).length) = suf :=
        List.drop_left (pre ++ mid) suf
      rw [h1, hdrop2, hsuf', h1]
    · -- the masked middle
      intro i hi1 hi2
      have hiL : pre.length ≤ i := by omega
      have hiR : i < (pre ++ mid).length := by
        simp only [List.length_append, hmidlen, hkh]
        omega
      rw [List.getElem?_append, if_pos hiR, List.getElem?_append, if_neg (by omega)]
      rw [hmid, List.getElem?_replicate]
      rw [if_pos (by simp only [List.length_append, hmidlen] at hiR; omega)]

/-- Witness for C8: masking a 9-character credit-card-like value with the
length-preserving policy that keeps two head and two tail characters. -/
theorem mask_value_length_preserving_witness :
    (MaskingConfig.mk '*' true false 2 2).hash_mode = false ∧
    (MaskingConfig.mk '*' true false 2 2).preserve_length = true ∧
    ((mask_value (fun v => v) ['4', '0', '1', '2', '8', '8', '8', '8', '1'] "credit_card"
          (MaskingConfig.mk '*' true false 2 2)).length
        = (['4', '0', '1', '2', '8', '8', '8', '8', '1'] : List Char).length ∧
      (mask_value (fun v => v) ['4', '0', '1', '2', '8', '8', '8', '8', '1'] "credit_card"
          (MaskingConfig.mk '*' true false 2 2)).take 2
        = (['4', '0', '1', '2', '8', '8', '8', '8', '1'] : List Char).take 2 ∧
      (mask_value (fun v => v) ['4', '0', '1', '2', '8', '8', '8', '8', '1'] "credit_card"
          (MaskingConfig.mk '*' true false 2 2)).drop
            ((['4', '0', '1', '2', '8', '8', '8', '8', '1'] : List Char).length - 2)
        = (['4', '0', '1', '2', '8', '8', '8', '8', '1'] : List Char).drop
            ((['4', '0', '1', '2', '8', '8', '8', '8', '1'] : List Char).length - 2) ∧
      ∀ i : Nat, 2 ≤ i → i + 2 < (['4', '0', '1', '2', '8', '8', '8', '8', '1'] : List Char).length →
        (mask_value (fun v => v) ['4', '0', '1', '2', '8', '8', '8', '8', '1'] "credit_card"
            (MaskingConfig.mk '*' true false 2 2))[i]? = some '*') := by
  refine ⟨by decide, by decide, ?_⟩
  exact mask_value_length_preserving (fun v => v) _ "credit_card" _ (by decide) (by decide)

/-- Counterexample to C9 as stated: the fail-safe does not hold for
*every* strategy.  `_mask_value` tests `hash_mode` **before** the
`mask_length <= 0` fail-safe, so a hash-digest policy whose
`keep_prefix + keep_suffix` exceeds the value's length still replaces the
value by the 8-character digest prefix.  The instantiating function is the
real `hashlib.md5` on the tested point:
`md5("abc").hexdigest() = "900150983cd24fb0d6963f7d28e17f72"`. -/
theorem mask_value_failsafe_cex :
    ¬ ∀ (md5hex : List Char → List Char) (value : List Char) (pii_type : String)
        (config : MaskingConfig),
        value.length < config.keep_head + config.keep_tail →
        mask_value md5hex value pii_type config = value := by
  intro h
  have := h (fun _ => "900150983cd24fb0d6963f7d28e17f72".toList)
    ['a', 'b', 'c'] "person" (MaskingConfig.mk '*' false true 2 2) (by decide)
  revert this
  decide

/-- C9 (amended): for the non-hash strategies (`fixed-token` and
`length-preserving`), a value whose length is exceeded by
`keep_prefix + keep_suffix` is returned unmodified; the hash-digest
strategy hashes the value regardless. -/
theorem mask_value_failsafe (md5hex : List Char → List Char) (value : List Char)
    (pii_type : String) (config : MaskingConfig)
    (hh : config.hash_mode = false)
    (hlen : value.length < config.keep_head + config.keep_tail) :
    mask_value md5hex value pii_type config = value := by
  unfold mask_value
  rw [hh]
  simp only [Bool.false_eq_true, if_false]
  set pre := if config.keep_head > 0 then value.take config.keep_head else [] with hpre
  set suf := if config.keep_tail > 0 then value.drop (value.length - config.keep_tail) else []
    with hsuf
  have hprelen : pre.length = min config.keep_head value.length :=
    mask_value_pre_length value config
  have hsuflen : suf.length = min config.keep_tail value.length :=
    mask_value_suf_length value config
  -- each kept end is clipped to the value's length, so mask_length ≤ 0
  rw [if_pos (by omega : (value.length : Int) - pre.length - suf.length ≤ 0)]

/-- Witness for C9 (amended): a fixed-token policy keeping 2+4 characters
of a 3-character value returns it unchanged. -/
theorem mask_value_failsafe_witness :
    (MaskingConfig.mk '*' false false 2 4).hash_mode = false ∧
    (['a', 'b', 'c'] : List Char).length
        < (MaskingConfig.mk '*' false false 2 4).keep_head
          + (MaskingConfig.mk '*' false false 2 4).keep_tail ∧
    mask_value (fun v => v) ['a', 'b', 'c'] "email" (MaskingConfig.mk '*' false false 2 4)
        = ['a', 'b', 'c'] := by
  refine ⟨by decide, by decide, ?_⟩
  exact mask_value_failsafe (fun v => v) _ "email" _ (by decide) (by decide)

/-! ## §3  Prompt filter — `src/backend/app/services/prompt_filter.py`

A compiled rule of `compiled_patterns` is a `RegexFilter` whose compiled
pattern is represented by its observable behaviour: `search` is
`pattern.search(text) is not None` and `sub` is
`pattern.sub(replacement or "***", text)` (the regex engine is an
external component).  `compiled_patterns` is a name-keyed `dict` iterated
in insertion order, i.e. configuration order with unique names, so it is
a list here. -/

inductive FilterAction where
  | block
  | sanitize
  | allow
  deriving DecidableEq, Repr

structure RegexFilter where
  name : String
  search : String → Bool
  sub : String → String
  action : FilterAction
  message : String

/-- `FilterResult` pydantic model, with its field defaults. -/
structure FilterResult where
  is_allowed : Bool
  action : FilterAction
  filtered_content : Option String := none
  message : Option String := none
  triggered_filters : List String := []
  moderation_flagged : Bool := false
  moderation_categories : List String := []
  deriving DecidableEq, Repr

/-- The loop of `PromptFilterService._apply_regex_filters` over
`compiled_patterns.items()`, carrying the accumulators `triggered_filters`
(`triggered`), `filtered_content` (`fc`) and `sanitize_messages` (`sm`),
followed by the post-loop result construction.  Note that `search` is run
against the **original** `content` while substitutions apply to the
running `filtered_content`, exactly as in the source. -/
def apply_regex_filters_go (content : String) (triggered : List String)
    (fc : String) (sm : List String) : List RegexFilter → FilterResult
  | [] =>
    if triggered ≠ [] then
      { is_allowed := true, action := .sanitize, filtered_content := some fc,
        message := sm.head?, triggered_filters := triggered }
    else
      { is_allowed := true, action := .allow, filtered_content := some fc,
        triggered_filters := [] }
  | filter_rule :: rest =>
    if filter_rule.search content then
      let triggered' := triggered ++ [filter_rule.name]
      match filter_rule.action with
      | .block =>
        { is_allowed := false, action := .block,
          message := some filter_rule.message, triggered_filters := triggered' }
      | .sanitize =>
        apply_regex_filters_go content triggered' (filter_rule.sub fc)
          (sm ++ [filter_rule.message]) rest
      | .allow =>
        apply_regex_filters_go content triggered' fc sm rest
    else
      apply_regex_filters_go content triggered fc sm rest

/-- `PromptFilterService._apply_regex_filters`. -/
def apply_regex_filters (compiled_patterns : List RegexFilter) (content : String) :
    FilterResult :=
  apply_regex_filters_go content [] content [] compiled_patterns

/-- The service settings consulted by the filter (supplied through the
`Settings` object; `OPENAI_API_KEY` is the empty string when
unconfigured, matching Python truthiness of `None`/`""`). -/
structure FilterSettings where
  PROMPT_FILTER_ENABLED : Bool
  OPENAI_MODERATION_ENABLED : Bool
  PROMPT_FILTER_STRICT_MODE : Bool
  OPENAI_API_KEY : String
  deriving DecidableEq, Repr

/-- The loaded `FilterConfig`: the ordered rule list plus the
`settings` entries the filter reads (`max_message_length`, defaulted to
4096 at the read site via `settings.get`). -/
structure FilterConfig where
  regex_filters : List RegexFilter
  max_message_length : Option Nat

/-- `OpenAIModerationResult` pydantic model. -/
structure OpenAIModerationResult where
  flagged : Bool
  categories : List (String × Bool)
  category_scores : List (String × ℚ)
  deriving DecidableEq, Repr

/-- Outcome of the external moderation HTTP call: a parsed result, an
`httpx.HTTPError`, or any other exception. -/
inductive ModerationCallOutcome where
  | ok (r : OpenAIModerationResult)
  | httpError
  | otherError
  deriving Repr

/-- `PromptFilterService._check_openai_moderation`: without an API key it
returns an unflagged empty result before any call is attempted; on a call
failure it fails closed (`flagged=true`) in strict mode and open
otherwise. -/
def check_openai_moderation (settings : FilterSettings)
    (outcome : ModerationCallOutcome) : OpenAIModerationResult :=
  if settings.OPENAI_API_KEY = "" then
    { flagged := false, categories := [], category_scores := [] }
  else
    match outcome with
    | .ok r => r
    | .httpError =>
      if settings.PROMPT_FILTER_STRICT_MODE then
        { flagged := true, categories := [("api_error", true)],
          category_scores := [("api_error", 1)] }
      else
        { flagged := false, categories := [], category_scores := [] }
    | .otherError =>
      if settings.PROMPT_FILTER_STRICT_MODE then
        { flagged := true, categories := [("system_error", true)],
          category_scores := [("system_error", 1)] }
      else
        { flagged := false, categories := [], category_scores := [] }

/-- Python `a or b` on an optional string: `None` and `""` are falsy. -/
def pyOrStr (a : Option String) (b : String) : String :=
  match a with
  | some s => if s = "" then b else s
  | none => b

/-- `PromptFilterService.filter_prompt`, on its non-exceptional path (the
`except` clause guards Python runtime faults, which the embedded pure
pipeline does not produce).  The moderation HTTP call is the external
`outcome` parameter. -/
def filter_prompt (settings : FilterSettings) (filter_config : FilterConfig)
    (outcome : ModerationCallOutcome) (content : String) : FilterResult :=
  if ¬ settings.PROMPT_FILTER_ENABLED then
    { is_allowed := true, action := .allow, filtered_content := some content }
  else
    let max_length := filter_config.max_message_length.getD 4096
    if content.length > max_length then
      { is_allowed := false, action := .block,
        message := some ("🚫 Your message is too long. Maximum length is "
          ++ toString max_length ++ " characters.") }
    else
      let regex_result := apply_regex_filters filter_config.regex_filters content
      if ¬ regex_result.is_allowed then
        regex_result
      else
        if settings.OPENAI_MODERATION_ENABLED then
          let moderation_result := check_openai_moderation settings outcome
          if moderation_result.flagged then
            { is_allowed := false, action := .block,
              message := some "🚫 Your input was flagged as inappropriate by our moderation system.",
              triggered_filters := regex_result.triggered_filters,
              moderation_flagged := true,
              moderation_categories :=
                (moderation_result.categories.filter (fun c => c.2)).map (fun c => c.1) }
          else
            { is_allowed := true, action := regex_result.action,
              filtered_content := regex_result.filtered_content,
              message := regex_result.message,
              triggered_filters := regex_result.triggered_filters,
              moderation_flagged := false, moderation_categories := [] }
        else
          { is_allowed := true, action := regex_result.action,
            filtered_content := regex_result.filtered_content,
            message := regex_result.message,
            triggered_filters := regex_result.triggered_filters,
            moderation_flagged := false, moderation_categories := [] }

/-! ### C3 — first matching block rule -/

/-- Counterexample to C3 as stated: when a sanitize rule earlier in the
configuration also matches, its name precedes the block rule's name in
`triggered_filters`, so `triggered_rules` is not the one-element list of
the block rule's name. -/
theorem apply_regex_filters_triggered_cex :
    (apply_regex_filters
        [⟨"profanity", fun _ => true, fun t => t, .sanitize, "m1"⟩,
         ⟨"sql", fun _ => true, fun t => t, .block, "m2"⟩]
        "x").action = FilterAction.block ∧
    (apply_regex_filters
        [⟨"profanity", fun _ => true, fun t => t, .sanitize, "m1"⟩,
         ⟨"sql", fun _ => true, fun t => t, .block, "m2"⟩]
        "x").message = some "m2" ∧
    (apply_regex_filters
        [⟨"profanity", fun _ => true, fun t => t, .sanitize, "m1"⟩,
         ⟨"sql", fun _ => true, fun t => t, .block, "m2"⟩]
        "x").triggered_filters = ["profanity", "sql"] ∧
    (["profanity", "sql"] : List String) ≠ ["sql"] := by
  refine ⟨rfl, rfl, rfl, by decide⟩

theorem apply_regex_filters_go_block (content : String) (r : RegexFilter)
    (hr : r.action = .block) (hmatch : r.search content = true) :
    ∀ (pre post : List RegexFilter) (triggered : List String) (fc : String)
      (sm : List String),
      (∀ q ∈ pre, q.action = .block → q.search content = false) →
      apply_regex_filters_go content triggered fc sm (pre ++ r :: post) =
        { is_allowed := false, action := .block, message := some r.message,
          triggered_filters :=
            triggered ++ (pre.filter (fun q => q.search content)).map
              (fun q => q.name) ++ [r.name] } := by
  intro pre
  induction pre with
  | nil =>
    intro post triggered fc sm _
    simp only [List.nil_append, apply_regex_filters_go, hmatch, if_true, hr]
    simp
  | cons q pre ih =>
    intro post triggered fc sm hpre
    rw [List.cons_append, apply_regex_filters_go]
    by_cases hq : q.search content
    · rw [if_pos hq]
      have hnb : q.action ≠ .block := fun h => by
        have := hpre q (by simp) h
        rw [hq] at this
        exact Bool.true_eq_false.mp this
      cases hqa : q.action with
      | block => exact absurd hqa hnb
      | sanitize =>
        dsimp only
        rw [ih post (triggered ++ [q.name]) (q.sub fc) (sm ++ [q.message])
          (fun p hp => hpre p (by simp [hp]))]
        simp [List.filter_cons, hq]
      | allow =>
        dsimp only
        rw [ih post (triggered ++ [q.name]) fc sm (fun p hp => hpre p (by simp [hp]))]
        simp [List.filter_cons, hq]
    · rw [if_neg hq]
      rw [ih post triggered fc sm (fun p hp => hpre p (by simp [hp]))]
      have : q.search content = false := by
        revert hq
        cases q.search content <;> simp
      simp [List.filter_cons, this]

/-- C3 (amended): if some block-action rule matches the input, the first
such rule (in configuration order) yields a BLOCK verdict
(`is_allowed = false`) carrying that rule's message, no later rule is
evaluated (in particular `filtered_content` is absent, so no sanitize
substitution from any later rule appears in the result), and
`triggered_filters` lists the names of the *earlier matching rules
followed by* the block rule's name — not the one-element list of the
claim. -/
theorem apply_regex_filters_first_block (pre post : List RegexFilter)
    (r : RegexFilter) (content : String)
    (hr : r.action = .block) (hmatch : r.search content = true)
    (hpre : ∀ q ∈ pre, q.action = .block → q.search content = false) :
    apply_regex_filters (pre ++ r :: post) content =
      { is_allowed := false, action := .block, message := some r.message,
        filtered_content := none,
        triggered_filters :=
          (pre.filter (fun q => q.search content)).map (fun q => q.name)
            ++ [r.name],
        moderation_flagged := false, moderation_categories := [] } := by
  rw [apply_regex_filters,
    apply_regex_filters_go_block content r hr hmatch pre post [] content [] hpre]
  simp

/-- Witness for C3 (amended): a matching sanitize rule followed by a
matching block rule. -/
theorem apply_regex_filters_first_block_witness :
    (⟨"sql", fun _ => true, fun t => t, .block, "m2"⟩ : RegexFilter).action
        = FilterAction.block ∧
    (⟨"sql", fun _ => true, fun t => t, .block, "m2"⟩ : RegexFilter).search "x" = true ∧
    (∀ q ∈ [(⟨"profanity", fun _ => true, fun t => t, .sanitize, "m1"⟩ : RegexFilter)],
        q.action = .block → q.search "x" = false) ∧
    apply_regex_filters
        ([⟨"profanity", fun _ => true, fun t => t, .sanitize, "m1"⟩]
          ++ (⟨"sql", fun _ => true, fun t => t, .block, "m2"⟩ : RegexFilter)
          :: []) "x" =
      { is_allowed := false, action := .block, message := some "m2",
        filtered_content := none, triggered_filters := ["profanity", "sql"],
        moderation_flagged := false, moderation_categories := [] } := by
  refine ⟨rfl, rfl, ?_, ?_⟩
  · intro q hq
    simp only [List.mem_singleton] at hq
    subst hq
    intro h
    cases h
  · exact apply_regex_filters_first_block _ _ _ _ rfl rfl
      (by
        intro q hq
        simp only [List.mem_singleton] at hq
        subst hq
        intro h
        cases h)

/-! ### C10 — moderation without an API key -/

theorem apply_regex_filters_go_moderation_flagged (content : String)
    (rules : List RegexFilter) :
    ∀ (triggered : List String) (fc : String) (sm : List String),
      (apply_regex_filters_go content triggered fc sm rules).moderation_flagged
        = false := by
  induction rules with
  | nil =>
    intro triggered fc sm
    rw [apply_regex_filters_go]
    by_cases h : triggered ≠ [] <;> simp [h]
  | cons q rest ih =>
    intro triggered fc sm
    rw [apply_regex_filters_go]
    by_cases hq : q.search content
    · rw [if_pos hq]
      cases q.action <;> simp [ih]
    · rw [if_neg hq]
      exact ih triggered fc sm

/-- C10: with no OpenAI API key configured the moderation check returns
`flagged = false` with empty categories for every outcome of the (never
attempted) call and irrespective of `strict_mode`, and consequently
`filter_prompt` never produces a moderation-flagged BLOCK verdict in that
configuration: moderation fails open even in strict mode. -/
theorem moderation_fails_open_without_api_key (settings : FilterSettings)
    (filter_config : FilterConfig) (outcome : ModerationCallOutcome)
    (content : String)
    (hkey : settings.OPENAI_API_KEY = "") :
    check_openai_moderation settings outcome =
      { flagged := false, categories := [], category_scores := [] } ∧
    (filter_prompt settings filter_config outcome content).moderation_flagged
      = false := by
  have hmod : check_openai_moderation settings outcome =
      { flagged := false, categories := [], category_scores := [] } := by
    rw [check_openai_moderation.eq_def, if_pos hkey]
  refine ⟨hmod, ?_⟩
  rw [filter_prompt]
  by_cases he : settings.PROMPT_FILTER_ENABLED = true
  · rw [if_neg (not_not_intro he)]
    by_cases hlen : content.length > filter_config.max_message_length.getD 4096
    · rw [if_pos hlen]
    · rw [if_neg hlen]
      by_cases hra :
          (apply_regex_filters filter_config.regex_filters content).is_allowed = true
      · rw [if_neg (not_not_intro hra)]
        by_cases hme : settings.OPENAI_MODERATION_ENABLED = true
        · rw [if_pos hme]
          rw [hmod]
          simp
        · rw [if_neg hme]
      · rw [if_pos hra]
        rw [apply_regex_filters]
        exact apply_regex_filters_go_moderation_flagged content _ [] content []
  · rw [if_pos he]

/-- Witness for C10: strict mode on, moderation enabled, the HTTP call
would have failed — and still nothing is flagged when the key is empty. -/
theorem moderation_fails_open_without_api_key_witness :
    (FilterSettings.mk true true true "").OPENAI_API_KEY = "" ∧
    (check_openai_moderation (FilterSettings.mk true true true "")
        ModerationCallOutcome.httpError =
      { flagged := false, categories := [], category_scores := [] } ∧
    (filter_prompt (FilterSettings.mk true true true "")
        (FilterConfig.mk [] none) ModerationCallOutcome.httpError
        "hello").moderation_flagged = false) := by
  refine ⟨rfl, ?_⟩
  exact moderation_fails_open_without_api_key _ _ _ _ rfl

/-! ## §4  AI service — `src/backend/app/services/ai.py`

The Redis cache and the HTTP provider are external: the cache is an
association list keyed by the cache-key string (Redis SET overwrites, so
a new entry is consed in front and lookup takes the most recent), and the
provider is a function from the model type and the number of prior calls
to that model type to an `AIResponse` or an error string.  `keyFn` stands
for `_generate_cache_key`, i.e.
`"ai_response:" + sha256(json.dumps({message, context, model_type},
sort_keys=True))`: a pure function of `(message, context, model_type)`.
`calls` records every `_call_ai_service` invocation in order. -/

inductive ModelType where
  | openai
  | llama
  deriving DecidableEq, Repr

structure CtxMsg where
  role : String
  content : String
  timestamp : String
  deriving DecidableEq, Repr

structure AIResponse where
  content : String
  model_used : String
  tokens_used : Nat
  deriving DecidableEq, Repr

structure AIServiceError where
  msg : String
  deriving DecidableEq, Repr

structure AIServiceConfig where
  fallback_enabled : Bool
  cache_enabled : Bool
  deriving DecidableEq, Repr

structure AIState where
  cache : List (String × AIResponse)
  calls : List ModelType
  deriving DecidableEq, Repr

/-- `AIService._get_cached_response` (the happy path of its `try`; a cache
read error is swallowed and yields `None`). -/
def get_cached_response (cfg : AIServiceConfig) (st : AIState)
    (cache_key : String) : Option AIResponse :=
  if cfg.cache_enabled then st.cache.lookup cache_key else none

/-- `AIService._cache_response` (Redis `SET` with TTL; expiry is enforced
by the store, not modelled while no expiry intervenes). -/
def cache_response (cfg : AIServiceConfig) (cache_key : String)
    (response : AIResponse) (st : AIState) : AIState :=
  if cfg.cache_enabled then { st with cache := (cache_key, response) :: st.cache } else st

/-- `AIService._call_ai_service`: one HTTP POST to the external provider,
recorded in the call log. -/
def call_ai_service (provider : ModelType → Nat → Except String AIResponse)
    (model_type : ModelType) (st : AIState) : Except String AIResponse × AIState :=
  (provider model_type (st.calls.count model_type),
   { st with calls := st.calls ++ [model_type] })

/-- `AIService.generate_response`: cache lookup, provider call, cache
write on success; on failure one level of fallback to `LLAMA` (when
enabled and not already on `LLAMA`), whose own failure is wrapped in the
orchestration-level `AIServiceError`. -/
def generate_response (keyFn : String → List CtxMsg → ModelType → String)
    (provider : ModelType → Nat → Except String AIResponse)
    (cfg : AIServiceConfig) (message : String) (context : List CtxMsg) :
    (model_type : ModelType) → AIState → Except AIServiceError String × AIState
  | model_type, st =>
    let cache_key := keyFn message context model_type
    match get_cached_response cfg st cache_key with
    | some cached_response => (.ok cached_response.content, st)
    | none =>
      match call_ai_service provider model_type st with
      | (.ok response, st1) =>
        (.ok response.content, cache_response cfg cache_key response st1)
      | (.error e, st1) =>
        if h : cfg.fallback_enabled = true ∧ model_type ≠ ModelType.llama then
          match generate_response keyFn provider cfg message context ModelType.llama st1 with
          | (.ok c, st2) => (.ok c, st2)
          | (.error _fallback_error, st2) =>
            (.error ⟨"Both primary and fallback AI attempts failed"⟩, st2)
        else
          (.error ⟨e⟩, st1)
  termination_by model_type _ => match model_type with | .llama => 0 | .openai => 1
  decreasing_by
    cases model_type with
    | llama => exact absurd rfl h.2
    | openai => decide

/-- C6: two consecutive `generate_response` calls with identical
`(message, context, model_type)` against a cache with no entry for that
key make exactly one provider call: the first call stores the provider's
response under the computed key and returns its content, the second is
answered from the cache with the same content and touches neither the
provider nor the state. -/
theorem generate_response_cache_round_trip
    (keyFn : String → List CtxMsg → ModelType → String)
    (provider : ModelType → Nat → Except String AIResponse)
    (cfg : AIServiceConfig) (message : String) (context : List CtxMsg)
    (model_type : ModelType) (st : AIState) (resp : AIResponse)
    (hcache_en : cfg.cache_enabled = true)
    (hmiss : st.cache.lookup (keyFn message context model_type) = none)
    (hprov : provider model_type (st.calls.count model_type) = .ok resp) :
    generate_response keyFn provider cfg message context model_type st =
      (.ok resp.content,
       { cache := (keyFn message context model_type, resp) :: st.cache,
         calls := st.calls ++ [model_type] }) ∧
    generate_response keyFn provider cfg message context model_type
        { cache := (keyFn message context model_type, resp) :: st.cache,
          calls := st.calls ++ [model_type] } =
      (.ok resp.content,
       { cache := (keyFn message context model_type, resp) :: st.cache,
         calls := st.calls ++ [model_type] }) := by
  constructor
  · rw [generate_response]
    rw [show get_cached_response cfg st (keyFn message context model_type) = none by
      rw [get_cached_response, if_pos hcache_en, hmiss]]
    rw [call_ai_service, hprov]
    simp only []
    rw [cache_response, if_pos hcache_en]
  · rw [generate_response]
    rw [show get_cached_response cfg
        { cache := (keyFn message context model_type, resp) :: st.cache,
          calls := st.calls ++ [model_type] }
        (keyFn message context model_type) = some resp by
      rw [get_cached_response, if_pos hcache_en]
      simp [List.lookup]]

/-- Concrete key function for the C6 witness: a pure function of the
request triple, standing in for the sha256 digest. -/
def c6_keyFn : String → List CtxMsg → ModelType → String := fun m _ _ => m

/-- Concrete always-succeeding provider for the C6 witness. -/
def c6_provider : ModelType → Nat → Except String AIResponse :=
  fun _ _ => .ok (AIResponse.mk "hello" "gpt" 5)

/-- Witness for C6 at a concrete request against an empty cache. -/
theorem generate_response_cache_round_trip_witness :
    (AIServiceConfig.mk true true).cache_enabled = true ∧
    (AIState.mk [] []).cache.lookup (c6_keyFn "hi" [] ModelType.openai) = none ∧
    c6_provider ModelType.openai ((AIState.mk [] []).calls.count ModelType.openai)
      = Except.ok (AIResponse.mk "hello" "gpt" 5) ∧
    (generate_response c6_keyFn c6_provider
        (AIServiceConfig.mk true true) "hi" [] ModelType.openai (AIState.mk [] []) =
      (.ok "hello",
       { cache := [(c6_keyFn "hi" [] ModelType.openai, AIResponse.mk "hello" "gpt" 5)],
         calls := (AIState.mk [] []).calls ++ [ModelType.openai] }) ∧
    generate_response c6_keyFn c6_provider
        (AIServiceConfig.mk true true) "hi" []
        ModelType.openai
        { cache := [(c6_keyFn "hi" [] ModelType.openai, AIResponse.mk "hello" "gpt" 5)],
          calls := (AIState.mk [] []).calls ++ [ModelType.openai] } =
      (.ok "hello",
       { cache := [(c6_keyFn "hi" [] ModelType.openai, AIResponse.mk "hello" "gpt" 5)],
         calls := (AIState.mk [] []).calls ++ [ModelType.openai] })) := by
  refine ⟨rfl, rfl, rfl, ?_⟩
  exact generate_response_cache_round_trip c6_keyFn c6_provider
    (AIServiceConfig.mk true true) "hi" [] ModelType.openai (AIState.mk [] [])
    (AIResponse.mk "hello" "gpt" 5) rfl rfl rfl

/-! ## §5  Chat service — `src/backend/app/services/chat.py`

The relational repository is the external persistence sink (§6 of the
design): conversations and messages live in `ChatState`, message and
conversation ids come from a fresh-id counter, and `timestamp` is the
state's frozen clock.  `asyncio.sleep` durations are recorded in
`sleeps`.  The prompt-filter service and the PII handler
(`PIIHandler.process_text`) enter as functions; the AI service is the
embedding of §4 acting on the `ai` sub-state. -/

structure Conversation where
  id : Nat
  user_id : Nat
  tenant_id : Nat
  chatbot_instance_id : Nat
  deriving DecidableEq, Repr

/-- The JSON `metadata` payloads attached to messages, as a record of the
known optional keys. -/
structure MsgMetadata where
  blocked : Option Bool := none
  filter_result : Option FilterResult := none
  filter_block : Option Bool := none
  sanitized : Option Bool := none
  sanitization_message : Option (Option String) := none
  triggered_filters : Option (List String) := none
  sanitization_warning : Option String := none
  deriving DecidableEq, Repr

structure StoredMessage where
  id : Nat
  conversation_id : Nat
  content : String
  role : String
  user_id : Option Nat
  metadata : Option MsgMetadata
  timestamp : Nat
  deriving DecidableEq, Repr

structure ChatState where
  conversations : List Conversation
  messages : List StoredMessage
  next_id : Nat
  now : Nat
  sleeps : List Nat
  ai : AIState
  deriving DecidableEq, Repr

/-- The exceptions `process_message` can raise: FastAPI `HTTPException`
and `TenantMismatchError`. -/
inductive ChatError where
  | httpException (status : Nat) (detail : String)
  | tenantMismatch (detail : String)
  deriving DecidableEq, Repr

/-- The value returned by `process_message` (a dict in the source). -/
structure ChatResponse where
  message_id : Nat
  conversation_id : Nat
  content : String
  role : String
  timestamp : Nat
  metadata : Option MsgMetadata
  deriving DecidableEq, Repr

/-- `ChatRepository.create_message`: persist a message, yielding it and
the updated store. -/
def create_message (st : ChatState) (conversation_id : Nat) (content role : String)
    (user_id : Option Nat) (metadata : Option MsgMetadata) :
    StoredMessage × ChatState :=
  let m : StoredMessage :=
    { id := st.next_id, conversation_id := conversation_id, content := content,
      role := role, user_id := user_id, metadata := metadata, timestamp := st.now }
  (m, { st with messages := st.messages ++ [m], next_id := st.next_id + 1 })

/-- `ChatRepository.get_conversation`. -/
def get_conversation (st : ChatState) (conversation_id : Nat) : Option Conversation :=
  st.conversations.find? (fun c => c.id == conversation_id)

/-- `ChatRepository.create_conversation` for a bot instance. -/
def create_conversation (st : ChatState) (user_id tenant_id chatbot_instance_id : Nat) :
    Conversation × ChatState :=
  let c : Conversation :=
    { id := st.next_id, user_id := user_id, tenant_id := tenant_id,
      chatbot_instance_id := chatbot_instance_id }
  (c, { st with conversations := st.conversations ++ [c], next_id := st.next_id + 1 })

/-- `ChatService._get_or_create_conversation`: fetch and validate tenant
and bot-instance ownership, or create a fresh conversation. -/
def get_or_create_conversation (st : ChatState)
    (user_id tenant_id chatbot_instance_id : Nat) (conversation_id : Option Nat) :
    Except ChatError (Conversation × ChatState) :=
  match conversation_id with
  | some cid =>
    match get_conversation st cid with
    | none =>
      .error (.httpException 404 ("Conversation " ++ toString cid ++ " not found"))
    | some conversation =>
      if conversation.tenant_id ≠ tenant_id then
        .error (.tenantMismatch ("Conversation " ++ toString cid
          ++ " does not belong to tenant " ++ toString tenant_id))
      else if conversation.chatbot_instance_id ≠ chatbot_instance_id then
        .error (.httpException 400 ("Conversation " ++ toString cid
          ++ " does not belong to bot instance " ++ toString chatbot_instance_id))
      else
        .ok (conversation, st)
  | none => .ok (create_conversation st user_id tenant_id chatbot_instance_id)

/-- `ChatRepository.get_messages` limited to a conversation. -/
def get_messages (st : ChatState) (conversation_id : Nat) (limit : Nat) :
    List StoredMessage :=
  (st.messages.filter (fun m => m.conversation_id == conversation_id)).take limit

/-- `ChatService._get_conversation_context` (`limit = 10` at the call
site): recent messages as `{role, content, timestamp}` entries. -/
def get_conversation_context (st : ChatState) (conversation_id : Nat) (limit : Nat) :
    List CtxMsg :=
  (get_messages st conversation_id limit).map
    (fun msg => { role := msg.role, content := msg.content,
                  timestamp := toString msg.timestamp })

/-- Python truthiness of an optional string (`None` and `""` are falsy). -/
def pyTruthyStr : Option String → Bool
  | some s => decide (s ≠ "")
  | none => false

/-- One iteration body of the retry loop of `process_message`: call
`AIService.generate_response` on the `ai` sub-state. -/
def chat_ai_step (keyFn : String → List CtxMsg → ModelType → String)
    (provider : ModelType → Nat → Except String AIResponse)
    (aiCfg : AIServiceConfig) (masked_message : String) (context : List CtxMsg)
    (model_type : ModelType) (s : ChatState) :
    Except AIServiceError String × ChatState :=
  let r := generate_response keyFn provider aiCfg masked_message context model_type s.ai
  (r.1, { s with ai := r.2 })

/-- The retry loop `for attempt in range(self.max_retries)` of
`process_message`: on `AIServiceError`, the last attempt raises
`HTTPException(503)`, earlier ones sleep `retry_delay * (attempt + 1)`
seconds and retry.  The `fuel` argument is a termination device equal to
`max_retries - attempt` at every call; the `fuel = 0` base case is
unreachable for the source's `max_retries = 3` entry point. -/
def ai_retry_loop (gen : ChatState → Except AIServiceError String × ChatState)
    (max_retries retry_delay : Nat) :
    Nat → Nat → ChatState → Except ChatError String × ChatState
  | _, 0, st => (.error (.httpException 503 "AI service temporarily unavailable"), st)
  | attempt, fuel + 1, st =>
    match gen st with
    | (.ok r, st1) => (.ok r, st1)
    | (.error _e, st1) =>
      if attempt = max_retries - 1 then
        (.error (.httpException 503 "AI service temporarily unavailable"), st1)
      else
        ai_retry_loop gen max_retries retry_delay (attempt + 1) fuel
          { st1 with sleeps := st1.sleeps ++ [retry_delay * (attempt + 1)] }

/-- `ChatService.process_message`.  The prompt filter service is the
function `filter_fn` (its `filter_prompt` bound to the settings and the
moderation outcome), the PII handler is `pii`, and the AI service of §4
is instantiated with `keyFn`/`provider`/`aiCfg`.  `max_retries = 3` and
`retry_delay = 1` are the constants set in `ChatService.__init__`. -/
def process_message (filter_fn : String → FilterResult) (pii : String → String)
    (keyFn : String → List CtxMsg → ModelType → String)
    (provider : ModelType → Nat → Except String AIResponse)
    (aiCfg : AIServiceConfig)
    (user_id tenant_id chatbot_instance_id : Nat) (message : String)
    (conversation_id : Option Nat) (model_type : ModelType) (st : ChatState) :
    Except ChatError ChatResponse × ChatState :=
  let filter_result := filter_fn message
  if filter_result.is_allowed = false then
    match get_or_create_conversation st user_id tenant_id chatbot_instance_id
        conversation_id with
    | .error e => (.error e, st)
    | .ok (conversation, st1) =>
      let (_user_message, st2) := create_message st1 conversation.id message "user"
        (some user_id) (some { blocked := some true, filter_result := some filter_result })
      let (system_message, st3) := create_message st2 conversation.id
        (pyOrStr filter_result.message "🚫 Your message was blocked by our content filter.")
        "system" none (some { filter_block := some true })
      (.ok { message_id := system_message.id, conversation_id := conversation.id,
             content := system_message.content, role := system_message.role,
             timestamp := system_message.timestamp,
             metadata := system_message.metadata }, st3)
  else
    let processed_message := pyOrStr filter_result.filtered_content message
    match get_or_create_conversation st user_id tenant_id chatbot_instance_id
        conversation_id with
    | .error e => (.error e, st)
    | .ok (conversation, st1) =>
      let context := get_conversation_context st1 conversation.id 10
      let masked_message := pii processed_message
      match ai_retry_loop
          (chat_ai_step keyFn provider aiCfg masked_message context model_type)
          3 1 0 3 st1 with
      | (.error e, st2) => (.error e, st2)
      | (.ok ai_response, st2) =>
        let masked_ai_response := pii ai_response
        let user_message_metadata : Option MsgMetadata :=
          if filter_result.action = FilterAction.sanitize then
            some { sanitized := some true,
                   sanitization_message := some filter_result.message,
                   triggered_filters := some filter_result.triggered_filters }
          else none
        let (_user_message, st3) := create_message st2 conversation.id masked_message
          "user" (some user_id) user_message_metadata
        let (ai_message, st4) := create_message st3 conversation.id masked_ai_response
          "assistant" none none
        let response_metadata : MsgMetadata :=
          if filter_result.action = FilterAction.sanitize
              ∧ pyTruthyStr filter_result.message = true then
            { sanitization_warning := filter_result.message }
          else {}
        (.ok { message_id := ai_message.id, conversation_id := conversation.id,
               content := ai_message.content, role := ai_message.role,
               timestamp := ai_message.timestamp,
               metadata := some response_metadata }, st4)

theorem get_or_create_conversation_preserves (st : ChatState)
    (user_id tenant_id chatbot_instance_id : Nat) (conversation_id : Option Nat)
    (conversation : Conversation) (st' : ChatState)
    (h : get_or_create_conversation st user_id tenant_id chatbot_instance_id
        conversation_id = .ok (conversation, st')) :
    st'.ai = st.ai ∧ st'.messages = st.messages ∧ st'.now = st.now := by
  cases conversation_id with
  | none =>
    rw [get_or_create_conversation, create_conversation] at h
    cases h
    exact ⟨rfl, rfl, rfl⟩
  | some cid =>
    rw [get_or_create_conversation] at h
    cases hg : get_conversation st cid with
    | none => rw [hg] at h; cases h
    | some c =>
      rw [hg] at h
      dsimp only at h
      by_cases h1 : c.tenant_id ≠ tenant_id
      · rw [if_pos h1] at h; cases h
      · rw [if_neg h1] at h
        by_cases h2 : c.chatbot_instance_id ≠ chatbot_instance_id
        · rw [if_pos h2] at h; cases h
        · rw [if_neg h2] at h
          cases h
          exact ⟨rfl, rfl, rfl⟩

/-- C1: when the prompt filter returns a BLOCK verdict
(`is_allowed = false`, with a non-empty user-facing message `m`),
`process_message` returns a `system`-role message whose content is `m`,
persists the raw message with role `user` flagged
`blocked = true` (carrying the full filter result), and never invokes
`AIService.generate_response`: the AI sub-state (its call log and cache)
is unchanged. -/
theorem process_message_blocked (filter_fn : String → FilterResult)
    (pii : String → String) (keyFn : String → List CtxMsg → ModelType → String)
    (provider : ModelType → Nat → Except String AIResponse) (aiCfg : AIServiceConfig)
    (user_id tenant_id chatbot_instance_id : Nat) (message : String)
    (conversation_id : Option Nat) (model_type : ModelType) (st : ChatState)
    (m : String) (conversation : Conversation) (st1 : ChatState)
    (hblock : (filter_fn message).is_allowed = false)
    (hmsg : (filter_fn message).message = some m)
    (hm : m ≠ "")
    (hconv : get_or_create_conversation st user_id tenant_id chatbot_instance_id
        conversation_id = .ok (conversation, st1)) :
    ∃ r st', process_message filter_fn pii keyFn provider aiCfg user_id tenant_id
        chatbot_instance_id message conversation_id model_type st = (.ok r, st') ∧
      r.role = "system" ∧ r.content = m ∧
      st'.ai = st.ai ∧
      ∃ um ∈ st'.messages, um.content = message ∧ um.role = "user" ∧
        um.metadata = some { blocked := some true,
                             filter_result := some (filter_fn message) } := by
  have hpres := get_or_create_conversation_preserves st user_id tenant_id
    chatbot_instance_id conversation_id conversation st1 hconv
  rw [process_message]
  simp only [hblock, eq_self_iff_true, if_true, hconv, create_message]
  refine ⟨_, _, rfl, rfl, ?_, ?_, ?_⟩
  · rw [hmsg, pyOrStr, if_neg hm]
  · exact hpres.1
  · refine ⟨StoredMessage.mk st1.next_id conversation.id message "user" (some user_id)
        (some (MsgMetadata.mk (some true) (some (filter_fn message)) none none none none none))
        st1.now, ?_, rfl, rfl, rfl⟩
    simp

/-- Witness filter for C1: a service that blocks everything with message
`"nope"`. -/
def c1_filter_fn : String → FilterResult :=
  fun _ => { is_allowed := false, action := .block, message := some "nope" }

/-- Witness initial state for C1. -/
def c1_st : ChatState := ChatState.mk [] [] 0 0 [] (AIState.mk [] [])

/-- Witness for C1: a blocked message on a fresh conversation. -/
theorem process_message_blocked_witness :
    (c1_filter_fn "hello").is_allowed = false ∧
    (c1_filter_fn "hello").message = some "nope" ∧
    "nope" ≠ "" ∧
    get_or_create_conversation c1_st 7 8 9 none
      = .ok (Conversation.mk 0 7 8 9,
          { c1_st with conversations := [Conversation.mk 0 7 8 9], next_id := 1 }) ∧
    (∃ r st', process_message c1_filter_fn (fun s => s) (fun m _ _ => m)
        (fun _ _ => .error "down") (AIServiceConfig.mk true true) 7 8 9 "hello" none
        ModelType.openai c1_st = (.ok r, st') ∧
      r.role = "system" ∧ r.content = "nope" ∧ st'.ai = c1_st.ai ∧
      ∃ um ∈ st'.messages, um.content = "hello" ∧ um.role = "user" ∧
        um.metadata = some { blocked := some true,
                             filter_result := some (c1_filter_fn "hello") }) := by
  refine ⟨rfl, rfl, by decide, rfl, ?_⟩
  exact process_message_blocked c1_filter_fn (fun s => s) (fun m _ _ => m)
    (fun _ _ => .error "down") (AIServiceConfig.mk true true) 7 8 9 "hello" none
    ModelType.openai c1_st "nope" (Conversation.mk 0 7 8 9)
    { c1_st with conversations := [Conversation.mk 0 7 8 9], next_id := 1 }
    rfl rfl (by decide) rfl

/-! ### Helper lemmas for the orchestration failure paths -/

theorem count_append_openai (calls : List ModelType) :
    (calls ++ [ModelType.openai]).count ModelType.llama = calls.count ModelType.llama := by
  rw [List.count_append]
  rfl

theorem generate_response_miss_ok (keyFn : String → List CtxMsg → ModelType → String)
    (provider : ModelType → Nat → Except String AIResponse) (cfg : AIServiceConfig)
    (message : String) (context : List CtxMsg) (model_type : ModelType) (A : AIState)
    (resp : AIResponse)
    (hce : cfg.cache_enabled = true)
    (hmiss : A.cache.lookup (keyFn message context model_type) = none)
    (hprov : provider model_type (A.calls.count model_type) = .ok resp) :
    generate_response keyFn provider cfg message context model_type A =
      (.ok resp.content,
       { cache := (keyFn message context model_type, resp) :: A.cache,
         calls := A.calls ++ [model_type] }) := by
  rw [generate_response]
  rw [show get_cached_response cfg A (keyFn message context model_type) = none by
    rw [get_cached_response, if_pos hce, hmiss]]
  rw [call_ai_service, hprov]
  simp only []
  rw [cache_response, if_pos hce]

theorem generate_response_llama_err (keyFn : String → List CtxMsg → ModelType → String)
    (provider : ModelType → Nat → Except String AIResponse) (cfg : AIServiceConfig)
    (message : String) (context : List CtxMsg) (A : AIState) (e : String)
    (hce : cfg.cache_enabled = true)
    (hmiss : A.cache.lookup (keyFn message context ModelType.llama) = none)
    (hprov : provider ModelType.llama (A.calls.count ModelType.llama) = .error e) :
    generate_response keyFn provider cfg message context ModelType.llama A =
      (.error ⟨e⟩, { A with calls := A.calls ++ [ModelType.llama] }) := by
  rw [generate_response]
  rw [show get_cached_response cfg A (keyFn message context ModelType.llama) = none by
    rw [get_cached_response, if_pos hce, hmiss]]
  rw [call_ai_service, hprov]
  simp only []
  rw [dif_neg (fun h => h.2 rfl)]

/-- A primary (`openai`) call that fails over to a successful `llama`
fallback: both providers are tried once, the fallback's response is
cached under the **fallback** cache key and returned. -/
theorem generate_response_fallback_ok (keyFn : String → List CtxMsg → ModelType → String)
    (provider : ModelType → Nat → Except String AIResponse) (cfg : AIServiceConfig)
    (message : String) (context : List CtxMsg) (A : AIState) (e : String)
    (resp : AIResponse)
    (hfb : cfg.fallback_enabled = true) (hce : cfg.cache_enabled = true)
    (hA : A.cache = [])
    (hpf : provider ModelType.openai (A.calls.count ModelType.openai) = .error e)
    (hfo : provider ModelType.llama (A.calls.count ModelType.llama) = .ok resp) :
    generate_response keyFn provider cfg message context ModelType.openai A =
      (.ok resp.content,
       { cache := [(keyFn message context ModelType.llama, resp)],
         calls := A.calls ++ [ModelType.openai, ModelType.llama] }) := by
  rw [generate_response]
  rw [show get_cached_response cfg A (keyFn message context ModelType.openai) = none by
    rw [get_cached_response, if_pos hce, hA]
    rfl]
  rw [call_ai_service, hpf]
  simp only []
  rw [dif_pos ⟨hfb, by decide⟩]
  rw [generate_response_miss_ok keyFn provider cfg message context ModelType.llama
    { A with calls := A.calls ++ [ModelType.openai] } resp hce
    (by rw [hA]; rfl)
    (by rw [count_append_openai]; exact hfo)]
  rw [hA]
  simp [List.append_assoc]

/-- A primary (`openai`) call whose fallback also fails: both providers
are tried once, nothing is cached, and the orchestration-level
`AIServiceError` is raised. -/
theorem generate_response_fallback_err (keyFn : String → List CtxMsg → ModelType → String)
    (provider : ModelType → Nat → Except String AIResponse) (cfg : AIServiceConfig)
    (message : String) (context : List CtxMsg) (A : AIState) (e e2 : String)
    (hfb : cfg.fallback_enabled = true) (hce : cfg.cache_enabled = true)
    (hA : A.cache = [])
    (hpf : provider ModelType.openai (A.calls.count ModelType.openai) = .error e)
    (hfo : provider ModelType.llama (A.calls.count ModelType.llama) = .error e2) :
    generate_response keyFn provider cfg message context ModelType.openai A =
      (.error ⟨"Both primary and fallback AI attempts failed"⟩,
       { cache := A.cache, calls := A.calls ++ [ModelType.openai, ModelType.llama] }) := by
  rw [generate_response]
  rw [show get_cached_response cfg A (keyFn message context ModelType.openai) = none by
    rw [get_cached_response, if_pos hce, hA]
    rfl]
  rw [call_ai_service, hpf]
  simp only []
  rw [dif_pos ⟨hfb, by decide⟩]
  rw [generate_response_llama_err keyFn provider cfg message context
    { A with calls := A.calls ++ [ModelType.openai] } e2 hce
    (by rw [hA]; rfl)
    (by rw [count_append_openai]; exact hfo)]
  simp [List.append_assoc]

/-- Lifting of `generate_response_fallback_err` to the coordinator's loop
body. -/
theorem chat_ai_step_fail (keyFn : String → List CtxMsg → ModelType → String)
    (provider : ModelType → Nat → Except String AIResponse) (aiCfg : AIServiceConfig)
    (message : String) (context : List CtxMsg) (s : ChatState) (e e2 : String)
    (hfb : aiCfg.fallback_enabled = true) (hce : aiCfg.cache_enabled = true)
    (hA : s.ai.cache = [])
    (hpf : provider ModelType.openai (s.ai.calls.count ModelType.openai) = .error e)
    (hfo : provider ModelType.llama (s.ai.calls.count ModelType.llama) = .error e2) :
    chat_ai_step keyFn provider aiCfg message context ModelType.openai s =
      (.error ⟨"Both primary and fallback AI attempts failed"⟩,
       { s with ai := (AIState.mk s.ai.cache
           (s.ai.calls ++ [ModelType.openai, ModelType.llama])) }) := by
  rw [chat_ai_step]
  rw [generate_response_fallback_err keyFn provider aiCfg message context s.ai e e2
    hfb hce hA hpf hfo]

/-- Lifting of `generate_response_fallback_ok` to the coordinator's loop
body. -/
theorem chat_ai_step_fallback_ok (keyFn : String → List CtxMsg → ModelType → String)
    (provider : ModelType → Nat → Except String AIResponse) (aiCfg : AIServiceConfig)
    (message : String) (context : List CtxMsg) (s : ChatState) (e : String)
    (resp : AIResponse)
    (hfb : aiCfg.fallback_enabled = true) (hce : aiCfg.cache_enabled = true)
    (hA : s.ai.cache = [])
    (hpf : provider ModelType.openai (s.ai.calls.count ModelType.openai) = .error e)
    (hfo : provider ModelType.llama (s.ai.calls.count ModelType.llama) = .ok resp) :
    chat_ai_step keyFn provider aiCfg message context ModelType.openai s =
      (.ok resp.content,
       { s with ai := (AIState.mk
           [(keyFn message context ModelType.llama, resp)]
           (s.ai.calls ++ [ModelType.openai, ModelType.llama])) }) := by
  rw [chat_ai_step]
  rw [generate_response_fallback_ok keyFn provider aiCfg message context s.ai e resp
    hfb hce hA hpf hfo]

theorem ai_retry_loop_ok (gen : ChatState → Except AIServiceError String × ChatState)
    (max_retries retry_delay attempt fuel : Nat) (st st1 : ChatState) (r : String)
    (h : gen st = (.ok r, st1)) :
    ai_retry_loop gen max_retries retry_delay attempt (fuel + 1) st = (.ok r, st1) := by
  rw [ai_retry_loop, h]

theorem ai_retry_loop_err_last (gen : ChatState → Except AIServiceError String × ChatState)
    (max_retries retry_delay attempt fuel : Nat) (st st1 : ChatState) (e : AIServiceError)
    (h : gen st = (.error e, st1)) (hlast : attempt = max_retries - 1) :
    ai_retry_loop gen max_retries retry_delay attempt (fuel + 1) st =
      (.error (.httpException 503 "AI service temporarily unavailable"), st1) := by
  rw [ai_retry_loop, h]
  simp only []
  rw [if_pos hlast]

theorem ai_retry_loop_err_next (gen : ChatState → Except AIServiceError String × ChatState)
    (max_retries retry_delay attempt fuel : Nat) (st st1 : ChatState) (e : AIServiceError)
    (h : gen st = (.error e, st1)) (hnext : attempt ≠ max_retries - 1) :
    ai_retry_loop gen max_retries retry_delay attempt (fuel + 1) st =
      ai_retry_loop gen max_retries retry_delay (attempt + 1) fuel
        { st1 with sleeps := st1.sleeps ++ [retry_delay * (attempt + 1)] } := by
  rw [ai_retry_loop, h]
  simp only []
  rw [if_neg hnext]

/-- Concrete provider for C2: the primary fails on every attempt, the
fallback succeeds. -/
def c2_provider : ModelType → Nat → Except String AIResponse
  | ModelType.openai, _ => .error "primary down"
  | ModelType.llama, _ => .ok (AIResponse.mk "fallback answer" "llama" 7)

/-- Concrete cache-key function for C2 (distinct keys per model type). -/
def c2_keyFn : String → List CtxMsg → ModelType → String :=
  fun m _ t =>
    (match t with
     | ModelType.openai => "openai:"
     | ModelType.llama => "llama:") ++ m

/-- Concrete initial state for C2. -/
def c2_st : ChatState := ChatState.mk [] [] 0 0 [] (AIState.mk [] [])

/-- Counterexample to C2 as stated: with a primary provider that fails on
every attempt and a working fallback, the pipeline makes **one** primary
attempt immediately followed by the fallback attempt and returns — not
`max_retries = 3` primary attempts before a single fallback attempt.  The
recorded provider-call sequence is `[openai, llama]`, not
`[openai, openai, openai, llama]`. -/
theorem retry_fallback_cex :
    c2_provider ModelType.openai 0 = .error "primary down" ∧
    c2_provider ModelType.openai 1 = .error "primary down" ∧
    c2_provider ModelType.openai 2 = .error "primary down" ∧
    ai_retry_loop (chat_ai_step c2_keyFn c2_provider (AIServiceConfig.mk true true)
        "q" [] ModelType.openai) 3 1 0 3 c2_st
      = (.ok "fallback answer",
         { c2_st with ai := (AIState.mk
             [("llama:q", AIResponse.mk "fallback answer" "llama" 7)]
             [ModelType.openai, ModelType.llama]) }) ∧
    ([ModelType.openai, ModelType.llama] : List ModelType)
      ≠ [ModelType.openai, ModelType.openai, ModelType.openai, ModelType.llama] := by
  refine ⟨rfl, rfl, rfl, ?_, by decide⟩
  have hstep : chat_ai_step c2_keyFn c2_provider (AIServiceConfig.mk true true)
      "q" [] ModelType.openai c2_st =
      (.ok "fallback answer",
       { c2_st with ai := (AIState.mk
           [("llama:q", AIResponse.mk "fallback answer" "llama" 7)]
           [ModelType.openai, ModelType.llama]) }) := by
    have := chat_ai_step_fallback_ok c2_keyFn c2_provider (AIServiceConfig.mk true true)
      "q" [] c2_st "primary down" (AIResponse.mk "fallback answer" "llama" 7)
      rfl rfl rfl rfl rfl
    exact this
  exact ai_retry_loop_ok _ 3 1 0 2 c2_st _ "fallback answer" hstep

/-- C2 (amended): with the `max_retries = 3`, `retry_delay = 1` loop of
`ChatService.process_message` around `AIService.generate_response`, a
primary provider that fails on every attempt yields, per loop iteration,
**one primary attempt immediately followed by one fallback attempt**
(not `max_retries` primary attempts before a single fallback attempt):
if the fallback succeeds, the first iteration already returns its
response, which is cached under the fallback cache key, and two provider
calls were made in total; if the fallback also always fails, the loop
performs three primary/fallback attempt pairs with linear backoff sleeps
`1·1 = 1` and `1·2 = 2` seconds between iterations, raises the
coordinator's `HTTPException(503)` (a failure type distinct from the
BLOCK verdicts and validation errors), and nothing is ever written to the
cache. -/
theorem retry_fallback_behavior (keyFn : String → List CtxMsg → ModelType → String)
    (provider : ModelType → Nat → Except String AIResponse)
    (aiCfg : AIServiceConfig) (message : String) (context : List CtxMsg)
    (st : ChatState) (pe : Nat → String)
    (hfb : aiCfg.fallback_enabled = true) (hce : aiCfg.cache_enabled = true)
    (hcache : st.ai.cache = []) (hcalls : st.ai.calls = [])
    (hfail : ∀ n, provider ModelType.openai n = .error (pe n)) :
    (∀ resp : AIResponse, provider ModelType.llama 0 = .ok resp →
      ai_retry_loop (chat_ai_step keyFn provider aiCfg message context ModelType.openai)
          3 1 0 3 st =
        (.ok resp.content,
         { st with ai := (AIState.mk [(keyFn message context ModelType.llama, resp)]
             [ModelType.openai, ModelType.llama]) })) ∧
    (∀ fe : Nat → String, (∀ n, provider ModelType.llama n = .error (fe n)) →
      ai_retry_loop (chat_ai_step keyFn provider aiCfg message context ModelType.openai)
          3 1 0 3 st =
        (.error (ChatError.httpException 503 "AI service temporarily unavailable"),
         { st with
             ai := (AIState.mk [] [ModelType.openai, ModelType.llama, ModelType.openai,
               ModelType.llama, ModelType.openai, ModelType.llama]),
             sleeps := st.sleeps ++ [1, 2] })) := by
  have h0o : st.ai.calls.count ModelType.openai = 0 := by rw [hcalls]; rfl
  have h0l : st.ai.calls.count ModelType.llama = 0 := by rw [hcalls]; rfl
  constructor
  · intro resp hok
    have hstep : chat_ai_step keyFn provider aiCfg message context ModelType.openai st =
        (.ok resp.content,
         { st with ai := (AIState.mk [(keyFn message context ModelType.llama, resp)]
             (st.ai.calls ++ [ModelType.openai, ModelType.llama])) }) :=
      chat_ai_step_fallback_ok keyFn provider aiCfg message context st (pe 0) resp
        hfb hce hcache (by rw [h0o]; exact hfail 0) (by rw [h0l]; exact hok)
    rw [hcalls] at hstep
    simp only [List.nil_append] at hstep
    exact ai_retry_loop_ok _ 3 1 0 2 st _ resp.content hstep
  · intro fe hfe
    have hstep1 : chat_ai_step keyFn provider aiCfg message context ModelType.openai st =
        (.error ⟨"Both primary and fallback AI attempts failed"⟩,
         { st with ai := (AIState.mk st.ai.cache
             (st.ai.calls ++ [ModelType.openai, ModelType.llama])) }) :=
      chat_ai_step_fail keyFn provider aiCfg message context st (pe 0) (fe 0)
        hfb hce hcache (by rw [h0o]; exact hfail 0) (by rw [h0l]; exact hfe 0)
    rw [hcache, hcalls] at hstep1
    simp only [List.nil_append] at hstep1
    have hstep2 : chat_ai_step keyFn provider aiCfg message context ModelType.openai
        { st with
            ai := (AIState.mk [] [ModelType.openai, ModelType.llama]),
            sleeps := st.sleeps ++ [1] } =
        (.error ⟨"Both primary and fallback AI attempts failed"⟩,
         { st with
             ai := (AIState.mk [] [ModelType.openai, ModelType.llama,
               ModelType.openai, ModelType.llama]),
             sleeps := st.sleeps ++ [1] }) :=
      chat_ai_step_fail keyFn provider aiCfg message context
        { st with
            ai := (AIState.mk [] [ModelType.openai, ModelType.llama]),
            sleeps := st.sleeps ++ [1] } (pe 1) (fe 1)
        hfb hce rfl (hfail 1) (hfe 1)
    have hstep3 : chat_ai_step keyFn provider aiCfg message context ModelType.openai
        { st with
            ai := (AIState.mk [] [ModelType.openai, ModelType.llama,
              ModelType.openai, ModelType.llama]),
            sleeps := (st.sleeps ++ [1]) ++ [2] } =
        (.error ⟨"Both primary and fallback AI attempts failed"⟩,
         { st with
             ai := (AIState.mk [] [ModelType.openai, ModelType.llama,
               ModelType.openai, ModelType.llama, ModelType.openai, ModelType.llama]),
             sleeps := (st.sleeps ++ [1]) ++ [2] }) :=
      chat_ai_step_fail keyFn provider aiCfg message context
        { st with
            ai := (AIState.mk [] [ModelType.openai, ModelType.llama,
              ModelType.openai, ModelType.llama]),
            sleeps := (st.sleeps ++ [1]) ++ [2] } (pe 2) (fe 2)
        hfb hce rfl (hfail 2) (hfe 2)
    have l1 : ai_retry_loop
        (chat_ai_step keyFn provider aiCfg message context ModelType.openai) 3 1 0 3 st =
        ai_retry_loop (chat_ai_step keyFn provider aiCfg message context ModelType.openai)
          3 1 1 2
          { st with
              ai := (AIState.mk [] [ModelType.openai, ModelType.llama]),
              sleeps := st.sleeps ++ [1] } :=
      ai_retry_loop_err_next _ 3 1 0 2 st _ _ hstep1 (by decide)
    have l2 : ai_retry_loop
        (chat_ai_step keyFn provider aiCfg message context ModelType.openai) 3 1 1 2
        { st with
            ai := (AIState.mk [] [ModelType.openai, ModelType.llama]),
            sleeps := st.sleeps ++ [1] } =
        ai_retry_loop (chat_ai_step keyFn provider aiCfg message context ModelType.openai)
          3 1 2 1
          { st with
              ai := (AIState.mk [] [ModelType.openai, ModelType.llama,
                ModelType.openai, ModelType.llama]),
              sleeps := (st.sleeps ++ [1]) ++ [2] } :=
      ai_retry_loop_err_next _ 3 1 1 1 _ _ _ hstep2 (by decide)
    have l3 : ai_retry_loop
        (chat_ai_step keyFn provider aiCfg message context ModelType.openai) 3 1 2 1
        { st with
            ai := (AIState.mk [] [ModelType.openai, ModelType.llama,
              ModelType.openai, ModelType.llama]),
            sleeps := (st.sleeps ++ [1]) ++ [2] } =
        (.error (ChatError.httpException 503 "AI service temporarily unavailable"),
         { st with
             ai := (AIState.mk [] [ModelType.openai, ModelType.llama,
               ModelType.openai, ModelType.llama, ModelType.openai, ModelType.llama]),
             sleeps := (st.sleeps ++ [1]) ++ [2] }) :=
      ai_retry_loop_err_last _ 3 1 2 0 _ _ _ hstep3 (by decide)
    rw [l1, l2, l3]
    simp [List.append_assoc]

/-- Witness for C2 (amended) with the concrete always-failing primary and
succeeding fallback of the counterexample. -/
theorem retry_fallback_behavior_witness :
    (AIServiceConfig.mk true true).fallback_enabled = true ∧
    (AIServiceConfig.mk true true).cache_enabled = true ∧
    c2_st.ai.cache = [] ∧ c2_st.ai.calls = [] ∧
    (∀ n, c2_provider ModelType.openai n = .error ((fun _ => "primary down") n)) ∧
    ((∀ resp : AIResponse, c2_provider ModelType.llama 0 = .ok resp →
      ai_retry_loop (chat_ai_step c2_keyFn c2_provider (AIServiceConfig.mk true true)
          "q" [] ModelType.openai) 3 1 0 3 c2_st =
        (.ok resp.content,
         { c2_st with ai := (AIState.mk [(c2_keyFn "q" [] ModelType.llama, resp)]
             [ModelType.openai, ModelType.llama]) })) ∧
    (∀ fe : Nat → String, (∀ n, c2_provider ModelType.llama n = .error (fe n)) →
      ai_retry_loop (chat_ai_step c2_keyFn c2_provider (AIServiceConfig.mk true true)
          "q" [] ModelType.openai) 3 1 0 3 c2_st =
        (.error (ChatError.httpException 503 "AI service temporarily unavailable"),
         { c2_st with
             ai := (AIState.mk [] [ModelType.openai, ModelType.llama, ModelType.openai,
               ModelType.llama, ModelType.openai, ModelType.llama]),
             sleeps := c2_st.sleeps ++ [1, 2] }))) := by
  refine ⟨rfl, rfl, rfl, rfl, fun n => rfl, ?_⟩
  exact retry_fallback_behavior c2_keyFn c2_provider (AIServiceConfig.mk true true)
    "q" [] c2_st (fun _ => "primary down") rfl rfl rfl rfl (fun n => rfl)

end Chatbot
